import Mathlib

/-
Verification development for the resource-table subsystem of the
`cross-slash` archive reader/rewriter (crate `arc-reader`).

The Rust source is embedded shallowly:
- machine integers (`u32`) become `Nat`, with `% 2 ^ 32` applied exactly
  where the Rust arithmetic can wrap (left shifts);
- code that can `panic!` / `.expect` / `.unwrap` is embedded as
  `Except Failure _`, with one `Failure` constructor per panic site;
  `Failure.ioError` stands for an `Err(std::io::Error)` return value,
  which the re-serializer never produces because all of its writes go
  into an in-memory `Vec<u8>`;
- the byte sink of the re-serializer is abstracted to the sequence of
  records written per table (the byte packing itself is a fixed-layout
  little-endian dump of exactly those records).

`containers.rs` (the `Table`, `IndexLookup`, `BucketLookup` and
`TableRef` types) is not part of the provided sources; those few
definitions are modelled from spec.md section 4.2 and are marked
`Modelled from the spec:` in their doc comments.  Everything else is
translated directly from the Rust files named in the comments.
-/

namespace ArcReader

/-- Modulus for 32-bit wrapping arithmetic. -/
def U32_MOD : Nat := 2 ^ 32

/-- Source: src/arc-reader/src/index.rs, `INVALID_INDEX`. -/
def INVALID_INDEX : Nat := 0xFFFFFF

/-- Embedding of Rust's `Range<u32>` (`start..end`); `end` is a Lean
keyword so the upper bound is called `stop`. -/
structure Range32 where
  start : Nat
  stop : Nat
deriving DecidableEq, Repr

/-- Number of elements yielded by iterating `start..stop`, which is what
Rust's `Iterator::count` returns on a `Range<u32>`. -/
def Range32.count (r : Range32) : Nat := r.stop - r.start

/-- Membership of an index in the iteration of `start..stop`. -/
def Range32.mem (r : Range32) (i : Nat) : Prop := r.start ≤ i ∧ i < r.stop

instance (r : Range32) (i : Nat) : Decidable (r.mem i) := by
  unfold Range32.mem; infer_instance

/-- List of the indices yielded by iterating `start..stop` in order. -/
def Range32.toList (r : Range32) : List Nat :=
  (List.range (r.stop - r.start)).map (fun k => r.start + k)

/-- Source: src/arc-reader/src/index.rs, `checked_range`. -/
def checked_range (start count : Nat) : Range32 :=
  if INVALID_INDEX ≤ start + count then ⟨0, 0⟩ else ⟨start, start + count⟩

/-- Source: src/arc-reader/src/hash.rs, struct `Hash` — a 4-byte aligned
Hash40; `crc` and `len` are a `u32` and a `u8`. -/
structure Hash where
  crc : Nat
  len : Nat
deriving DecidableEq, Repr

/-- Source: src/arc-reader/src/hash.rs, struct `HashWithData`: a packed
`(crc: u32, len_and_data: u32)` composite. -/
structure HashWithData where
  crc : Nat
  len_and_data : Nat
deriving DecidableEq, Repr

namespace HashWithData

/-- Source: hash.rs `HashWithData::new` — `len_and_data` is
`str_len | (data << 8)`, with the `u32` shift wrapping. -/
def new (crc len data : Nat) : HashWithData :=
  ⟨crc, ((len % 256) ||| ((data <<< 8) % U32_MOD)) % U32_MOD⟩

/-- Source: hash.rs `HashWithData::length` — the low byte. -/
def length (h : HashWithData) : Nat := h.len_and_data &&& 0xFF

/-- Source: hash.rs `HashWithData::data` —
`(len_and_data & 0xFFFFFF00) >> 8`. -/
def data (h : HashWithData) : Nat := (h.len_and_data &&& 0xFFFFFF00) >>> 8

/-- Source: hash.rs `HashWithData::set_data` —
`len_and_data = (len_and_data & 0xFF) | data << 24`.  Note the shift
amount 24: this is the expression actually in the source (its
constructor `new` and getter `data` use shift 8). -/
def set_data (h : HashWithData) (d : Nat) : HashWithData :=
  ⟨h.crc, ((h.len_and_data &&& 0xFF) ||| ((d <<< 24) % U32_MOD)) % U32_MOD⟩

end HashWithData

/-- Result type of the embedded fallible computations.  Every
constructor except `ioError` models a `panic!` / failed `.expect` /
failed `.unwrap` (a process abort).  `ioError` models an
`Err(std::io::Error)` value actually returned to the caller; it is
never constructed by the embedded re-serializer because all writes go
to an in-memory buffer. -/
inductive Failure where
  /-- SerState::get panicked: index not reserved (serialization.rs). -/
  | getMissing : Failure
  /-- SerState::reserve / reserve_range panicked on a duplicate. -/
  | reserveDuplicate : Failure
  /-- SerState::reserve_range panicked: INVALID start with count ≠ 0. -/
  | reserveRangeInvalidCount : Failure
  /-- A `Table::get(..).expect(..)` failed (resource.rs loops). -/
  | tableEntryMissing : Failure
  /-- A `TableRef` lookup `.expect(..)` failed (file_package.rs). -/
  | refMissing : Failure
  /-- The `info_start.unwrap()` at resource.rs line 246 failed. -/
  | infoStartUnwrap : Failure
  /-- The `panic!("Unsupported load method ..")` in file_desc.rs. -/
  | corruptLoadMethod : Failure
  /-- Out-of-bounds slice index (io.rs `&self.data[range]`). -/
  | sliceOutOfBounds : Failure
  /-- An I/O-style `Err` returned at the API boundary. -/
  | ioError : Failure
deriving DecidableEq, Repr

/-- The record kinds used as `TypeId` keys of `SerState` in
serialization.rs. -/
inductive TableKind where
  | filePath | fileEntity | filePackage | filePackageChild
  | fileInfo | fileDesc | fileData | fileGroup
  | streamFolder | streamPath | streamDesc | streamData
deriving DecidableEq, Repr

/-- Source: src/arc-reader/src/archive/resource/serialization.rs,
`SerState` — a map from record type to an insertion-ordered set
(`IndexSet<u32>`) of reserved original indices, here one list per
record kind (a type that was never reserved has the empty list, which
behaves like the absent `HashMap` entry: `get` panics on it). -/
structure SerState where
  filePath : List Nat
  fileEntity : List Nat
  filePackage : List Nat
  filePackageChild : List Nat
  fileInfo : List Nat
  fileDesc : List Nat
  fileData : List Nat
  fileGroup : List Nat
  streamFolder : List Nat
  streamPath : List Nat
  streamDesc : List Nat
  streamData : List Nat
deriving DecidableEq, Repr

namespace SerState

/-- Fresh state: `SerState::new` (all sets empty). -/
def empty : SerState := ⟨[], [], [], [], [], [], [], [], [], [], [], []⟩

/-- The insertion-ordered set for one record kind. -/
def list (s : SerState) : TableKind → List Nat
  | .filePath => s.filePath
  | .fileEntity => s.fileEntity
  | .filePackage => s.filePackage
  | .filePackageChild => s.filePackageChild
  | .fileInfo => s.fileInfo
  | .fileDesc => s.fileDesc
  | .fileData => s.fileData
  | .fileGroup => s.fileGroup
  | .streamFolder => s.streamFolder
  | .streamPath => s.streamPath
  | .streamDesc => s.streamDesc
  | .streamData => s.streamData

/-- Append one original index to the ordered set of a kind
(`IndexSet::insert_full` on a value not yet present). -/
def push (s : SerState) : TableKind → Nat → SerState
  | .filePath, i => { s with filePath := s.filePath ++ [i] }
  | .fileEntity, i => { s with fileEntity := s.fileEntity ++ [i] }
  | .filePackage, i => { s with filePackage := s.filePackage ++ [i] }
  | .filePackageChild, i => { s with filePackageChild := s.filePackageChild ++ [i] }
  | .fileInfo, i => { s with fileInfo := s.fileInfo ++ [i] }
  | .fileDesc, i => { s with fileDesc := s.fileDesc ++ [i] }
  | .fileData, i => { s with fileData := s.fileData ++ [i] }
  | .fileGroup, i => { s with fileGroup := s.fileGroup ++ [i] }
  | .streamFolder, i => { s with streamFolder := s.streamFolder ++ [i] }
  | .streamPath, i => { s with streamPath := s.streamPath ++ [i] }
  | .streamDesc, i => { s with streamDesc := s.streamDesc ++ [i] }
  | .streamData, i => { s with streamData := s.streamData ++ [i] }

/-- Position of `i` in a list, `IndexSet::get_index_of`. -/
def posOf : List Nat → Nat → Option Nat
  | [], _ => none
  | x :: rest, i => if x = i then some 0 else (posOf rest i).map (· + 1)

/-- Source: serialization.rs `SerState::get` — the new dense index of
original index `i`; `INVALID_INDEX` passes through unchanged; a missing
reservation (or never-reserved kind) is a panic. -/
def get (s : SerState) (k : TableKind) (i : Nat) : Except Failure Nat :=
  if i = INVALID_INDEX then .ok i
  else
    match posOf (s.list k) i with
    | some n => .ok n
    | none => .error .getMissing

/-- Source: serialization.rs `SerState::reserve` — insert `i`, panic if
already present, return its position; `INVALID_INDEX` passes through. -/
def reserve (s : SerState) (k : TableKind) (i : Nat) :
    Except Failure (Nat × SerState) :=
  if i = INVALID_INDEX then .ok (i, s)
  else if (s.list k).contains i then .error .reserveDuplicate
  else .ok ((s.list k).length, s.push k i)

/-- Source: serialization.rs `SerState::try_reserve` — insert `i` if
absent, reporting whether the insert happened; `INVALID_INDEX` is
refused. -/
def try_reserve (s : SerState) (k : TableKind) (i : Nat) :
    Bool × SerState :=
  if i = INVALID_INDEX then (false, s)
  else if (s.list k).contains i then (false, s)
  else (true, s.push k i)

/-- Inner loop of `SerState::reserve_range`: strictly insert every index
of the iterated range, remembering the position of the first one. -/
def reserveRangeGo (k : TableKind) :
    SerState → Option Nat → List Nat → Except Failure (Option Nat × SerState)
  | s, first, [] => .ok (first, s)
  | s, first, i :: rest =>
    if (s.list k).contains i then .error .reserveDuplicate
    else
      reserveRangeGo k (s.push k i)
        (match first with
         | none => some (s.list k).length
         | some f => some f) rest

/-- Source: serialization.rs `SerState::reserve_range` — an INVALID
start demands count 0; otherwise every index of
`checked_range start count` is strictly reserved and the position of
the first is returned (`0` when the iterated range is empty). -/
def reserve_range (s : SerState) (k : TableKind) (start count : Nat) :
    Except Failure (Nat × SerState) :=
  if start = INVALID_INDEX then
    if count ≠ 0 then .error .reserveRangeInvalidCount
    else .ok (start, s)
  else
    match reserveRangeGo k s none (checked_range start count).toList with
    | .error e => .error e
    | .ok (first, s) => .ok (first.getD 0, s)

end SerState

/-- Flag-test helper: bitflags `intersects` — at least one common bit. -/
def flagsIntersect (flags mask : Nat) : Prop := flags &&& mask ≠ 0

instance (flags mask : Nat) : Decidable (flagsIntersect flags mask) := by
  unfold flagsIntersect; infer_instance

/-- Flag-test helper: bitflags `contains` — all bits of the mask. -/
def flagsContain (flags mask : Nat) : Prop := flags &&& mask = mask

instance (flags mask : Nat) : Decidable (flagsContain flags mask) := by
  unfold flagsContain; infer_instance

/-- Source: src/arc-reader/src/archive/data/file_info.rs,
`FileInfoFlags::IS_LOCALIZED = 1 << 15`. -/
def FileInfoFlags.IS_LOCALIZED : Nat := 1 <<< 15

/-- Source: file_info.rs `FileInfoFlags::IS_REGIONAL = 1 << 16`. -/
def FileInfoFlags.IS_REGIONAL : Nat := 1 <<< 16

/-- Source: src/arc-reader/src/lib.rs, `Locale::COUNT`. -/
def Locale.COUNT : Nat := 14

/-- Source: src/arc-reader/src/lib.rs, `Region::COUNT`. -/
def Region.COUNT : Nat := 5

/-- Source: src/arc-reader/src/archive/data/file_info.rs, struct
`FileInfo` (fields `path`, `entity`, `desc`, `flags`). -/
structure FileInfo where
  path : Nat
  entity : Nat
  desc : Nat
  flags : Nat
deriving DecidableEq, Repr

/-- Source: file_info.rs `FileInfo::descriptor_range` — fan-out count
`Locale::COUNT + 1` when localized, `Region::COUNT + 1` when regional,
otherwise 1, fed through `checked_range`. -/
def FileInfo.descriptor_range (fi : FileInfo) : Range32 :=
  let count :=
    if flagsIntersect fi.flags FileInfoFlags.IS_LOCALIZED then Locale.COUNT + 1
    else if flagsIntersect fi.flags FileInfoFlags.IS_REGIONAL then Region.COUNT + 1
    else 1
  checked_range fi.desc count

/-- Source: file_info.rs `FileInfo::reserve`. -/
def FileInfo.reserve (fi : FileInfo) (s : SerState) : Except Failure SerState :=
  (s.reserve_range .fileDesc fi.desc fi.descriptor_range.count).map (·.2)

/-- Source: file_info.rs `FileInfo::reinternalize`. -/
def FileInfo.reinternalize (fi : FileInfo) (s : SerState) :
    Except Failure FileInfo := do
  let path ← s.get .filePath fi.path
  let entity ← s.get .fileEntity fi.entity
  let desc ← s.get .fileDesc fi.desc
  .ok { fi with path := path, entity := entity, desc := desc }

/-- Source: src/arc-reader/src/archive/data/stream_path.rs,
`StreamFileFlags::IS_LOCALIZED = 1 << 0`. -/
def StreamFileFlags.IS_LOCALIZED : Nat := 1 <<< 0

/-- Source: stream_path.rs `StreamFileFlags::IS_REGIONAL = 1 << 1`. -/
def StreamFileFlags.IS_REGIONAL : Nat := 1 <<< 1

/-- Source: src/arc-reader/src/archive/data/stream_path.rs, struct
`StreamPath` (fields `path_and_desc`, `flags`). -/
structure StreamPath where
  path_and_desc : HashWithData
  flags : Nat
deriving DecidableEq, Repr

/-- Source: stream_path.rs `StreamPath::descriptor_range` — fan-out
`Locale::COUNT` / `Region::COUNT` / 1 through `checked_range`. -/
def StreamPath.descriptor_range (sp : StreamPath) : Range32 :=
  let count :=
    if flagsContain sp.flags StreamFileFlags.IS_LOCALIZED then Locale.COUNT
    else if flagsContain sp.flags StreamFileFlags.IS_REGIONAL then Region.COUNT
    else 1
  checked_range sp.path_and_desc.data count

/-- Source: stream_path.rs `StreamPath::reserve`. -/
def StreamPath.reserve (sp : StreamPath) (s : SerState) :
    Except Failure SerState :=
  (s.reserve_range .streamDesc sp.path_and_desc.data
    sp.descriptor_range.count).map (·.2)

/-- Source: stream_path.rs `StreamPath::reinternalize`. -/
def StreamPath.reinternalize (sp : StreamPath) (s : SerState) :
    Except Failure StreamPath := do
  let index ← s.get .streamDesc sp.path_and_desc.data
  .ok { sp with path_and_desc := sp.path_and_desc.set_data index }

/-- Source: src/arc-reader/src/archive/data/file_desc.rs, enum
`LoadMethod`. -/
inductive LoadMethod where
  | unowned (index : Nat)
  | owned (index : Nat)
  | packageSkip (index : Nat)
  | unknown
  | sharedButOwned (index : Nat)
  | unsupportedRegionLocale (regionLocale : Nat)
deriving DecidableEq, Repr

/-- Source: file_desc.rs `impl From<LoadMethod> for FileLoadMethod` —
re-encode a load method as a 32-bit word, tag in the high byte. -/
def LoadMethod.toWord : LoadMethod → Nat
  | .unowned index => index
  | .owned index => (0x01 <<< 24) ||| index
  | .packageSkip index => (0x03 <<< 24) ||| index
  | .unknown => 0x05 <<< 24
  | .sharedButOwned index => (0x09 <<< 24) ||| index
  | .unsupportedRegionLocale regionLocale => (0x10 <<< 24) ||| regionLocale

/-- Source: file_desc.rs `impl From<FileLoadMethod> for LoadMethod` —
decode the 32-bit word; an unsupported tag hits
`panic!("Unsupported load method ..")`. -/
def LoadMethod.fromWord (w : Nat) : Except Failure LoadMethod :=
  let kind := w >>> 24
  if kind = 0x00 then .ok (.unowned (w &&& 0xFFFFFF))
  else if kind = 0x01 then .ok (.owned (w &&& 0xFFFFFF))
  else if kind = 0x03 then .ok (.packageSkip (w &&& 0xFFFFFF))
  else if kind = 0x05 then .ok .unknown
  else if kind = 0x09 then .ok (.sharedButOwned (w &&& 0xFFFFFF))
  else if kind = 0x10 then .ok (.unsupportedRegionLocale (w &&& 0xFFFFFF))
  else .error .corruptLoadMethod

/-- Source: src/arc-reader/src/archive/data/file_desc.rs, struct
`FileDesc` (fields `group`, `file_data`, `load_method`). -/
structure FileDesc where
  group : Nat
  file_data : Nat
  load_method : Nat
deriving DecidableEq, Repr

/-- Source: file_desc.rs `FileDesc::reserve`. -/
def FileDesc.reserve (d : FileDesc) (s : SerState) :
    Except Failure SerState :=
  (s.reserve .fileData d.file_data).map (·.2)

/-- Source: file_desc.rs `FileDesc::reinternalize` — rewrites `group`
and `file_data`, then decodes the load method, rewrites its payload
through the per-tag table (`Owned` is erased to INVALID, `Unknown` and
`UnsupportedRegionLocale` untouched) and re-encodes it. -/
def FileDesc.reinternalize (d : FileDesc) (s : SerState) :
    Except Failure FileDesc := do
  let group ← s.get .fileGroup d.group
  let file_data ← s.get .fileData d.file_data
  let lm ← LoadMethod.fromWord d.load_method
  let lm ←
    (match lm with
     | .unowned index => (s.get .fileEntity index).map LoadMethod.unowned
     | .owned _ => .ok (.owned INVALID_INDEX)
     | .packageSkip index => (s.get .fileInfo index).map LoadMethod.packageSkip
     | .unknown => .ok .unknown
     | .sharedButOwned index =>
         (s.get .fileEntity index).map LoadMethod.sharedButOwned
     | .unsupportedRegionLocale r => .ok (.unsupportedRegionLocale r) :
     Except Failure LoadMethod)
  .ok { d with group := group, file_data := file_data,
               load_method := lm.toWord }

/-- Source: src/arc-reader/src/archive/data/file_entity.rs, struct
`FileEntity` (fields `package_or_group`, `info`). -/
structure FileEntity where
  package_or_group : Nat
  info : Nat
deriving DecidableEq, Repr

/-- Source: file_entity.rs `FileEntity::reinternalize` — the owner goes
through the FileGroup map when `package_or_group >= package_len` and
through the FilePackage map otherwise; `info` goes through the FileInfo
map. -/
def FileEntity.reinternalize (e : FileEntity) (s : SerState)
    (package_len : Nat) : Except Failure FileEntity := do
  let owner ←
    if package_len ≤ e.package_or_group then
      s.get .fileGroup e.package_or_group
    else
      s.get .filePackage e.package_or_group
  let info ← s.get .fileInfo e.info
  .ok { package_or_group := owner, info := info }

/-- Source: src/arc-reader/src/archive/data/file_path.rs, struct
`FilePath` (fields `path_and_entity`, `ext_and_version`, `parent`,
`file_name`). -/
structure FilePath where
  path_and_entity : HashWithData
  ext_and_version : HashWithData
  parent : Hash
  file_name : Hash
deriving DecidableEq, Repr

/-- Source: file_path.rs `FilePath::reinternalize` — the entity link is
rewritten through the FileEntity map and the previous-version link is
erased with `set_data(INVALID_INDEX)`. -/
def FilePath.reinternalize (p : FilePath) (s : SerState) :
    Except Failure FilePath := do
  let index ← s.get .fileEntity p.path_and_entity.data
  .ok { p with path_and_entity := p.path_and_entity.set_data index,
               ext_and_version := p.ext_and_version.set_data INVALID_INDEX }

/-- Source: src/arc-reader/src/archive/data/file_group.rs, struct
`FileGroup`. -/
structure FileGroup where
  archive_offset_lo : Nat
  archive_offset_hi : Nat
  decompressed_size : Nat
  compressed_size : Nat
  child_start : Nat
  child_count : Nat
  redirection : Nat
deriving DecidableEq, Repr

/-- Source: file_group.rs `FileGroup::child_range`. -/
def FileGroup.child_range (g : FileGroup) : Range32 :=
  checked_range g.child_start g.child_count

/-- Source: file_group.rs `FileGroup::reserve` — data disposition
`try_reserve`s each FileData child; info disposition strictly reserves
the FileInfo child range. -/
def FileGroup.reserve (g : FileGroup) (s : SerState) (is_data : Bool) :
    Except Failure SerState :=
  if is_data then
    .ok (g.child_range.toList.foldl
      (fun s i => (s.try_reserve .fileData i).2) s)
  else
    (s.reserve_range .fileInfo g.child_start g.child_count).map (·.2)

/-- Source: file_group.rs `FileGroup::reinternalize_data` —
`child_start` through the FileData map; a non-INVALID `redirection`
through the FileGroup map when `>= package_len`, else the FilePackage
map. -/
def FileGroup.reinternalize_data (g : FileGroup) (s : SerState)
    (package_len : Nat) : Except Failure FileGroup := do
  let child_start ← s.get .fileData g.child_start
  let redirection ←
    if g.redirection ≠ INVALID_INDEX then
      if package_len ≤ g.redirection then s.get .fileGroup g.redirection
      else s.get .filePackage g.redirection
    else .ok g.redirection
  .ok { g with child_start := child_start, redirection := redirection }

/-- Source: file_group.rs `FileGroup::reinternalize_info` —
`child_start` through the FileInfo map, `redirection` through the
FileGroup map. -/
def FileGroup.reinternalize_info (g : FileGroup) (s : SerState) :
    Except Failure FileGroup := do
  let child_start ← s.get .fileInfo g.child_start
  let redirection ← s.get .fileGroup g.redirection
  .ok { g with child_start := child_start, redirection := redirection }

/-- Source: src/arc-reader/src/archive/data/file_package.rs,
`FilePackageFlags::IS_LOCALIZED = 1 << 24`. -/
def FilePackageFlags.IS_LOCALIZED : Nat := 1 <<< 24

/-- Source: file_package.rs `FilePackageFlags::IS_REGIONAL = 1 << 25`. -/
def FilePackageFlags.IS_REGIONAL : Nat := 1 <<< 25

/-- Source: file_package.rs `FilePackageFlags::HAS_SUB_PACKAGE = 1 << 26`. -/
def FilePackageFlags.HAS_SUB_PACKAGE : Nat := 1 <<< 26

/-- Source: file_package.rs `FilePackageFlags::IS_SYM_LINK = 1 << 28`. -/
def FilePackageFlags.IS_SYM_LINK : Nat := 1 <<< 28

/-- Source: src/arc-reader/src/archive/data/file_package.rs, struct
`FilePackage`. -/
structure FilePackage where
  path_and_group : HashWithData
  name : Hash
  parent : Hash
  lifetime : Hash
  info_start : Nat
  info_count : Nat
  child_start : Nat
  child_count : Nat
  flags : Nat
deriving DecidableEq, Repr

/-- Source: src/arc-reader/src/archive/data/file_package.rs, struct
`FilePackageChild` — a transparent `HashWithData`. -/
structure FilePackageChild where
  inner : HashWithData
deriving DecidableEq, Repr

/-- Source: file_package.rs `FilePackageChild::reinternalize`. -/
def FilePackageChild.reinternalize (c : FilePackageChild) (s : SerState) :
    Except Failure FilePackageChild := do
  let index ← s.get .filePackage c.inner.data
  .ok ⟨c.inner.set_data index⟩

/-- Source: file_package.rs `FilePackage::info_range`. -/
def FilePackage.info_range (p : FilePackage) : Range32 :=
  checked_range p.info_start p.info_count

/-- Source: file_package.rs `FilePackage::data_group_range` — fan-out
`Locale::COUNT + 1` / `Region::COUNT + 1` / 1 from the package flags,
starting at `path_and_group.data`, through `checked_range`. -/
def FilePackage.data_group_range (p : FilePackage) : Range32 :=
  let start := p.path_and_group.data
  let count :=
    if flagsIntersect p.flags FilePackageFlags.IS_LOCALIZED then Locale.COUNT + 1
    else if flagsIntersect p.flags FilePackageFlags.IS_REGIONAL then Region.COUNT + 1
    else 1
  checked_range start count

/-- Source: file_package.rs `FilePackage::reserve` — child range, then
info range, then data-group range. -/
def FilePackage.reserve (p : FilePackage) (s : SerState) :
    Except Failure SerState := do
  let (_, s) ← s.reserve_range .filePackageChild p.child_start p.child_count
  let (_, s) ← s.reserve_range .fileInfo p.info_start p.info_count
  let (_, s) ← s.reserve_range .fileGroup p.path_and_group.data
    p.data_group_range.count
  .ok s

/-- Source: file_package.rs `FilePackage::reinternalize` —
`child_start` / `info_start` forced to INVALID on zero counts,
otherwise mapped; the data-group link rewritten with `set_data`. -/
def FilePackage.reinternalize (p : FilePackage) (s : SerState) :
    Except Failure FilePackage := do
  let child_start ←
    if p.child_count = 0 then .ok INVALID_INDEX
    else s.get .filePackageChild p.child_start
  let info_start ←
    if p.info_count = 0 then .ok INVALID_INDEX
    else s.get .fileInfo p.info_start
  let index ← s.get .fileGroup p.path_and_group.data
  .ok { p with child_start := child_start, info_start := info_start,
               path_and_group := p.path_and_group.set_data index }

/-- Source: src/arc-reader/src/archive/data/stream_folder.rs, struct
`StreamFolder`. -/
structure StreamFolder where
  name_and_child_count : HashWithData
  child_start_index : Nat
deriving DecidableEq, Repr

/-- Source: stream_folder.rs `StreamFolder::stream_path_range`. -/
def StreamFolder.stream_path_range (f : StreamFolder) : Range32 :=
  checked_range f.child_start_index f.name_and_child_count.data

/-- Source: stream_folder.rs `StreamFolder::reserve`. -/
def StreamFolder.reserve (f : StreamFolder) (s : SerState) :
    Except Failure SerState :=
  (s.reserve_range .streamPath f.child_start_index
    f.name_and_child_count.data).map (·.2)

/-- Source: stream_folder.rs `StreamFolder::reinternalize`. -/
def StreamFolder.reinternalize (f : StreamFolder) (s : SerState) :
    Except Failure StreamFolder := do
  let index ← s.get .streamPath f.child_start_index
  .ok { f with child_start_index := index }

/-- Source: src/arc-reader/src/archive/data/stream_desc.rs, struct
`StreamDesc`. -/
structure StreamDesc where
  stream_data : Nat
deriving DecidableEq, Repr

/-- Source: stream_desc.rs `StreamDesc::reserve` — a `try_reserve`
(stream data may be shared between descriptors). -/
def StreamDesc.reserve (d : StreamDesc) (s : SerState) : SerState :=
  (s.try_reserve .streamData d.stream_data).2

/-- Source: stream_desc.rs `StreamDesc::reinternalize`. -/
def StreamDesc.reinternalize (d : StreamDesc) (s : SerState) :
    Except Failure StreamDesc := do
  let index ← s.get .streamData d.stream_data
  .ok { stream_data := index }

/-- Source: src/arc-reader/src/archive/data/stream_data.rs, struct
`StreamData` — a leaf record. -/
structure StreamData where
  size : Nat
  offset : Nat
deriving DecidableEq, Repr

/-- Source: src/arc-reader/src/archive/data/file_data.rs, struct
`FileData` — a leaf record. -/
structure FileData where
  in_group_offset : Nat
  compressed_size : Nat
  decompressed_size : Nat
  flags : Nat
deriving DecidableEq, Repr

/-- Modelled from the spec: `containers.rs` is absent from the provided
sources.  Spec 4.2: `Table<T>` is a fixed slice of `T` plus an optional
dynamic extension slice (empty in loader output used by the
re-serializer). -/
structure Table (T : Type) where
  fixed : List T
  dynamic : List T
deriving DecidableEq, Repr

/-- All records of a table, fixed part first. -/
def Table.all {T : Type} (t : Table T) : List T := t.fixed ++ t.dynamic

/-- Modelled from the spec: `Table::len`. -/
def Table.len {T : Type} (t : Table T) : Nat := t.all.length

/-- Modelled from the spec: `Table::get` — the record at an original
index, when in range. -/
def Table.get {T : Type} (t : Table T) (i : Nat) : Option T := t.all.get? i

/-- Modelled from the spec: `Table::iter` — `(original index, record)`
pairs in table order. -/
def Table.iter {T : Type} (t : Table T) : List (Nat × T) :=
  t.all.enum

/-- Modelled from the spec: one entry of the bucket directory of a
`BucketLookup` — a `(bucket_start, bucket_len)` pair. -/
structure Bucket where
  bucket_start : Nat
  bucket_len : Nat
deriving DecidableEq, Repr

/-- Modelled from the spec: `IndexLookup` — an ordered array of
`HashWithData` whose `data` field indexes a companion table; `iter`
yields the `(hash, index)` pairs in on-disk order. -/
structure IndexLookup where
  entries : List HashWithData
deriving DecidableEq, Repr

/-- Modelled from the spec: `BucketLookup` — a bucket directory plus a
bucket-major flat array of `HashWithData` entries; `len` and
`bucket_count` are the header words the re-serializer re-emits. -/
structure BucketLookup where
  buckets : List Bucket
  entries : List HashWithData
deriving DecidableEq, Repr

/-- Source: src/arc-reader/src/archive/resource.rs, struct
`ResourceTables` — the aggregate of every table the loader slices out
of the decompressed buffer (the raw byte buffer itself is irrelevant to
the re-serializer's logic and omitted). -/
structure ResourceTables where
  stream_folder : Table StreamFolder
  stream_path_lookup : IndexLookup
  stream_path : Table StreamPath
  stream_desc : Table StreamDesc
  stream_data : Table StreamData
  file_path_lookup : BucketLookup
  file_path : Table FilePath
  file_entity : Table FileEntity
  file_package_lookup : IndexLookup
  file_package : Table FilePackage
  file_group : Table FileGroup
  file_package_child : Table FilePackageChild
  file_info : Table FileInfo
  file_desc : Table FileDesc
  file_data : Table FileData
deriving DecidableEq, Repr

/-- Source: file_package.rs, enum `SubPackageRef` — carried here as the
index of the referenced record (what `FileInfoGroupRef::index` /
`TableRef::index` expose). -/
inductive SubPackageRef where
  | fileGroup (index : Nat)
  | symLink (index : Nat)
deriving DecidableEq, Repr

/-- Source: file_package.rs `TableRef<FilePackage>::data_group` — the
file group named by `path_and_group.data`, with
`.expect("file group should exist")`. -/
def dataGroupOf (t : ResourceTables) (p : FilePackage) :
    Except Failure FileGroup :=
  match t.file_group.get p.path_and_group.data with
  | some g => .ok g
  | none => .error .refMissing

/-- Source: file_package.rs `TableRef<FilePackage>::sub_package` —
`None` without HAS_SUB_PACKAGE; a `SymLink` (the data group's
redirection must name an existing package) when IS_SYM_LINK is set;
otherwise a FileGroup subpackage when the redirection is not INVALID. -/
def subPackage (t : ResourceTables) (p : FilePackage) :
    Except Failure (Option SubPackageRef) :=
  if ¬ flagsContain p.flags FilePackageFlags.HAS_SUB_PACKAGE then .ok none
  else do
    let g ← dataGroupOf t p
    let redirection := g.redirection
    if flagsContain p.flags FilePackageFlags.IS_SYM_LINK then
      match t.file_package.get redirection with
      | some _ => .ok (some (.symLink redirection))
      | none => .error .refMissing
    else if redirection ≠ INVALID_INDEX then
      match t.file_group.get redirection with
      | some _ => .ok (some (.fileGroup redirection))
      | none => .error .refMissing
    else .ok none

/-- Source: resource.rs `into_bytes`, per-package body of the first
loop (lines 186-210): reserve the package index, its ranges, the
FileData children of each data group, each direct FileInfo, then record
the index of a resolved FileGroup subpackage. -/
def reserveOnePackage (t : ResourceTables) (acc : SerState × List Nat)
    (ip : Nat × FilePackage) : Except Failure (SerState × List Nat) := do
  let (cache, infoGroups) := acc
  let (index, package) := ip
  let (_, cache) ← cache.reserve .filePackage index
  let cache ← package.reserve cache
  let cache ← package.data_group_range.toList.foldlM
    (fun cache gi => do
      match t.file_group.get gi with
      | some group => group.reserve cache true
      | none => .error .tableEntryMissing)
    cache
  let cache ← package.info_range.toList.foldlM
    (fun cache ii => do
      match t.file_info.get ii with
      | some info => info.reserve cache
      | none => .error .tableEntryMissing)
    cache
  let packageRef ←
    (match t.file_package.get index with
     | some q => .ok q
     | none => .error .tableEntryMissing : Except Failure FilePackage)
  let sub ← subPackage t packageRef
  match sub with
  | some (.fileGroup gi) => .ok (cache, infoGroups ++ [gi])
  | _ => .ok (cache, infoGroups)

/-- Source: resource.rs `into_bytes` lines 184-210 — the package
reservation walk, returning the serialization state and the encountered
info-group indices in order. -/
def reservePackages (t : ResourceTables) :
    Except Failure (SerState × List Nat) :=
  t.file_package.iter.foldlM (reserveOnePackage t) (SerState.empty, [])

/-- Source: resource.rs `into_bytes` lines 212-244 — walk the collected
info groups: `try_reserve` each, remember the first newly reserved one
as `info_start`, and reserve each group's FileInfo children and their
descriptor ranges (each descriptor strictly reserving its FileData). -/
def reserveInfoGroups (t : ResourceTables) (cache : SerState)
    (infoGroups : List Nat) : Except Failure (SerState × Option Nat) :=
  infoGroups.foldlM
    (fun (acc : SerState × Option Nat) gi => do
      let (cache, infoStart) := acc
      let (inserted, cache) := cache.try_reserve .fileGroup gi
      if ¬ inserted then .ok (cache, infoStart)
      else do
        let infoStart := match infoStart with
          | none => some gi
          | some f => some f
        match t.file_group.get gi with
        | none => .error .tableEntryMissing
        | some group => do
          let cache ← group.reserve cache false
          let cache ← group.child_range.toList.foldlM
            (fun cache ii => do
              match t.file_info.get ii with
              | none => .error .tableEntryMissing
              | some info => do
                let cache ← info.reserve cache
                info.descriptor_range.toList.foldlM
                  (fun cache di => do
                    match t.file_desc.get di with
                    | none => .error .tableEntryMissing
                    | some desc => desc.reserve cache)
                  cache)
            cache
          .ok (cache, infoStart))
    (cache, none)

/-- Source: resource.rs `into_bytes` lines 248-275 — the remaining
reservations: every FilePath and FileEntity index in original order,
then each StreamFolder with its StreamPath children, their StreamDesc
children and the StreamData each descriptor points at. -/
def reserveRemaining (t : ResourceTables) (cache : SerState) :
    Except Failure SerState := do
  let cache ← t.file_path.iter.foldlM
    (fun cache ip => (cache.reserve .filePath ip.1).map (·.2)) cache
  let cache ← t.file_entity.iter.foldlM
    (fun cache ip => (cache.reserve .fileEntity ip.1).map (·.2)) cache
  t.stream_folder.iter.foldlM
    (fun cache ip => do
      let (index, folder) := ip
      let (_, cache) ← cache.reserve .streamFolder index
      let cache ← folder.reserve cache
      folder.stream_path_range.toList.foldlM
        (fun cache pi => do
          match t.stream_path.get pi with
          | none => .error .tableEntryMissing
          | some path => do
            let cache ← path.reserve cache
            path.descriptor_range.toList.foldlM
              (fun cache di => do
                match t.stream_desc.get di with
                | none => .error .tableEntryMissing
                | some desc => .ok (desc.reserve cache))
              cache)
        cache)
    cache

/-- Source: resource.rs `write_table` — look each reserved original
index up in the table (`.expect("invalid index")`), apply the rewrite
closure to a copy and emit it; the emitted records are collected in
order. -/
def write_table {T : Type} (table : Table T) (indexes : List Nat)
    (reint : T → Except Failure T) : Except Failure (List T) :=
  indexes.mapM
    (fun i =>
      match table.get i with
      | some value => reint value
      | none => .error .tableEntryMissing)

/-- Source: resource.rs `write_lookup` — re-emit each lookup entry with
its `data` rewritten through the peer table's new-index map, re-packed
by `HashWithData::new`. -/
def write_lookup (k : TableKind) (entries : List HashWithData)
    (s : SerState) : Except Failure (List HashWithData) :=
  entries.mapM
    (fun h => (s.get k h.data).map
      (fun n => HashWithData.new h.crc h.length n))

/-- Output of the re-serializer, abstracted from the flat byte buffer to
the per-table record sequences in the exact order `into_bytes` writes
them (the bucket directory and the two lookup-header words are emitted
verbatim). -/
structure SerializedTables where
  stream_folder : List StreamFolder
  stream_path_lookup : List HashWithData
  stream_path : List StreamPath
  stream_desc : List StreamDesc
  stream_data : List StreamData
  file_path_lookup_len : Nat
  file_path_bucket_count : Nat
  file_path_buckets : List Bucket
  file_path_lookup : List HashWithData
  file_path : List FilePath
  file_entity : List FileEntity
  file_package_lookup : List HashWithData
  file_package : List FilePackage
  file_group_data : List FileGroup
  file_group_info : List FileGroup
  file_package_child : List FilePackageChild
  file_info : List FileInfo
  file_desc : List FileDesc
  file_data : List FileData
deriving DecidableEq, Repr

/-- Source: resource.rs `into_bytes` lines 296-390 — the emit phase:
every table written in new-index (reservation) order with its rewrite
routine, the file-group table split around `info_start` between the
data-disposition and info-disposition rewrites. -/
def emitTables (t : ResourceTables) (cache : SerState) (infoStart : Nat) :
    Except Failure SerializedTables := do
  let streamFolderOut ← write_table t.stream_folder
    (cache.list .streamFolder) (fun f => f.reinternalize cache)
  let streamPathLookupOut ← write_lookup .streamPath
    t.stream_path_lookup.entries cache
  let streamPathOut ← write_table t.stream_path
    (cache.list .streamPath) (fun p => p.reinternalize cache)
  let streamDescOut ← write_table t.stream_desc
    (cache.list .streamDesc) (fun d => d.reinternalize cache)
  let streamDataOut ← write_table t.stream_data
    (cache.list .streamData) (fun d => .ok d)
  let filePathLookupOut ← write_lookup .filePath
    t.file_path_lookup.entries cache
  let filePathOut ← write_table t.file_path
    (cache.list .filePath) (fun p => p.reinternalize cache)
  let fileEntityOut ← write_table t.file_entity
    (cache.list .fileEntity)
    (fun e => e.reinternalize cache t.file_package.len)
  let filePackageLookupOut ← write_lookup .filePackage
    t.file_package_lookup.entries cache
  let filePackageOut ← write_table t.file_package
    (cache.list .filePackage) (fun p => p.reinternalize cache)
  let fileGroupDataOut ← write_table t.file_group
    ((cache.list .fileGroup).takeWhile (fun i => i < infoStart))
    (fun g => g.reinternalize_data cache t.file_package.len)
  let fileGroupInfoOut ← write_table t.file_group
    ((cache.list .fileGroup).dropWhile (fun i => i < infoStart))
    (fun g => g.reinternalize_info cache)
  let filePackageChildOut ← write_table t.file_package_child
    (cache.list .filePackageChild) (fun c => c.reinternalize cache)
  let fileInfoOut ← write_table t.file_info
    (cache.list .fileInfo) (fun i => i.reinternalize cache)
  let fileDescOut ← write_table t.file_desc
    (cache.list .fileDesc) (fun d => d.reinternalize cache)
  let fileDataOut ← write_table t.file_data
    (cache.list .fileData) (fun d => .ok d)
  .ok {
    stream_folder := streamFolderOut
    stream_path_lookup := streamPathLookupOut
    stream_path := streamPathOut
    stream_desc := streamDescOut
    stream_data := streamDataOut
    file_path_lookup_len := t.file_path_lookup.entries.length
    file_path_bucket_count := t.file_path_lookup.buckets.length
    file_path_buckets := t.file_path_lookup.buckets
    file_path_lookup := filePathLookupOut
    file_path := filePathOut
    file_entity := fileEntityOut
    file_package_lookup := filePackageLookupOut
    file_package := filePackageOut
    file_group_data := fileGroupDataOut
    file_group_info := fileGroupInfoOut
    file_package_child := filePackageChildOut
    file_info := fileInfoOut
    file_desc := fileDescOut
    file_data := fileDataOut }

/-- Source: resource.rs `ResourceTables::into_bytes` — reserve over
packages, then over collected info groups, `unwrap()` the `info_start`
(resource.rs line 246), finish the reservations and emit every table. -/
def ResourceTables.into_bytes (t : ResourceTables) :
    Except Failure SerializedTables := do
  let (cache, infoGroups) ← reservePackages t
  let (cache, infoStartOpt) ← reserveInfoGroups t cache infoGroups
  let infoStart ←
    (match infoStartOpt with
     | none => .error .infoStartUnwrap
     | some g => .ok g : Except Failure Nat)
  let cache ← reserveRemaining t cache
  emitTables t cache infoStart

/-- Source: src/arc-reader/src/io.rs, struct `BorrowedReader` — only
the length of the borrowed byte slice matters to the cursor logic. -/
structure BorrowedReader where
  dataLen : Nat
  cursor : Nat
deriving DecidableEq, Repr

/-- Source: io.rs `BorrowedReader::advance_byte_slice` — computes the
byte range `cursor..cursor + count * size_of::<T>()`, indexes the data
with it (a panic when out of bounds), and then advances the cursor with
`self.cursor += count`.  `size` stands for `std::mem::size_of::<T>()`. -/
def BorrowedReader.advance_byte_slice (r : BorrowedReader)
    (size count : Nat) : Except Failure (Range32 × BorrowedReader) :=
  let range : Range32 := ⟨r.cursor, r.cursor + count * size⟩
  if range.stop ≤ r.dataLen then
    .ok (range, { r with cursor := r.cursor + count })
  else
    .error .sliceOutOfBounds

/-- The all-zero 40-bit hash, used by the concrete test archives. -/
def h0 : Hash := ⟨0, 0⟩

/-- Concrete resource tables: one FilePackage (no HAS_SUB_PACKAGE flag)
owning one FileInfo, one FileDesc (`Unowned(INVALID)`), one data
FileGroup with no children, one FileEntity and one FilePath; no
streams.  Every reservation in the package walk succeeds and no package
resolves to a FileGroup subpackage. -/
def noSubTables : ResourceTables where
  stream_folder := ⟨[], []⟩
  stream_path_lookup := ⟨[]⟩
  stream_path := ⟨[], []⟩
  stream_desc := ⟨[], []⟩
  stream_data := ⟨[], []⟩
  file_path_lookup := ⟨[], []⟩
  file_path := ⟨[⟨⟨0, 0⟩, ⟨0, 0xFFFFFF00⟩, h0, h0⟩], []⟩
  file_entity := ⟨[⟨0, 0⟩], []⟩
  file_package_lookup := ⟨[]⟩
  file_package := ⟨[⟨⟨0, 0⟩, h0, h0, h0, 0, 1, INVALID_INDEX, 0, 0⟩], []⟩
  file_group := ⟨[⟨0, 0, 0, 0, INVALID_INDEX, 0, INVALID_INDEX⟩], []⟩
  file_package_child := ⟨[], []⟩
  file_info := ⟨[⟨0, 0, 0, 0⟩], []⟩
  file_desc := ⟨[⟨0, INVALID_INDEX, 0xFFFFFF⟩], []⟩
  file_data := ⟨[⟨0, 0, 0, 0⟩], []⟩

/-- Concrete resource tables on which `into_bytes` runs to completion:
one FilePackage with a FileGroup subpackage (data group 0 redirecting
to info group 1), two FileInfos, two FileDescs (`Unowned(INVALID)`),
one FileData, two FileEntities and two FilePaths; FilePath 1 points at
FileEntity 1 (`len_and_data = 0x100`, i.e. embedded data = 1) and both
FilePaths carry an INVALID previous-version link
(`len_and_data = 0xFFFFFF00`). -/
def roundTables : ResourceTables where
  stream_folder := ⟨[], []⟩
  stream_path_lookup := ⟨[]⟩
  stream_path := ⟨[], []⟩
  stream_desc := ⟨[], []⟩
  stream_data := ⟨[], []⟩
  file_path_lookup := ⟨[], []⟩
  file_path := ⟨[⟨⟨0, 0⟩, ⟨0, 0xFFFFFF00⟩, h0, h0⟩,
                 ⟨⟨0, 0x100⟩, ⟨0, 0xFFFFFF00⟩, h0, h0⟩], []⟩
  file_entity := ⟨[⟨0, 0⟩, ⟨1, 1⟩], []⟩
  file_package_lookup := ⟨[]⟩
  file_package := ⟨[⟨⟨0, 0⟩, h0, h0, h0, 0, 1, INVALID_INDEX, 0,
                    0x4000000⟩], []⟩
  file_group := ⟨[⟨0, 0, 0, 0, INVALID_INDEX, 0, 1⟩,
                  ⟨0, 0, 0, 0, 1, 1, 1⟩], []⟩
  file_package_child := ⟨[], []⟩
  file_info := ⟨[⟨0, 0, 0, 0⟩, ⟨1, 1, 1, 0⟩], []⟩
  file_desc := ⟨[⟨0, INVALID_INDEX, 0xFFFFFF⟩, ⟨1, 0, 0xFFFFFF⟩], []⟩
  file_data := ⟨[⟨0, 0, 0, 0⟩], []⟩

/-- The same archive as `roundTables` except that FileDesc 0 carries the
load-method word `0x02000000`, whose tag `0x02` is outside the
permitted set. -/
def badTagTables : ResourceTables :=
  { roundTables with
    file_desc := ⟨[⟨0, INVALID_INDEX, 0x02000000⟩, ⟨1, 0, 0xFFFFFF⟩], []⟩ }

/-- Serialization state with exactly FileEntity 0 reserved. -/
def entityZeroState : SerState :=
  { SerState.empty with fileEntity := [0] }

/-- Serialization state with FilePackage 5 and FileInfo 7 reserved. -/
def ownerState : SerState :=
  { SerState.empty with filePackage := [5], fileInfo := [7] }

/-- In-bounds behaviour of `checked_range`: when `start + count` stays
below the sentinel the range is exactly `start..start+count`, so it has
`count` elements. -/
theorem checked_range_count_of_lt (s c : Nat) (h : s + c < INVALID_INDEX) :
    (checked_range s c).count = c := by
  unfold checked_range Range32.count
  rw [if_neg (by omega)]
  simp

/-- Out-of-bounds behaviour of `checked_range`: when `start + count`
reaches the sentinel the result is the empty range `0..0`. -/
theorem checked_range_empty_of_ge (s c : Nat)
    (h : INVALID_INDEX ≤ s + c) : checked_range s c = ⟨0, 0⟩ := by
  unfold checked_range
  rw [if_pos h]

/-- Fan-out count the spec assigns to a FileInfo from its flags:
15 when localized, 6 when regional, 1 otherwise (spec 8 item 4). -/
def fileInfoFanout (flags : Nat) : Nat :=
  if flagsIntersect flags FileInfoFlags.IS_LOCALIZED then 15
  else if flagsIntersect flags FileInfoFlags.IS_REGIONAL then 6
  else 1

/-- Fan-out count the spec assigns to a StreamPath from its flags:
14 when localized, 5 when regional, 1 otherwise (spec 8 item 4). -/
def streamPathFanout (flags : Nat) : Nat :=
  if flagsContain flags StreamFileFlags.IS_LOCALIZED then 14
  else if flagsContain flags StreamFileFlags.IS_REGIONAL then 5
  else 1

/-- Fan-out count the spec assigns to a FilePackage from its flags:
15 when localized, 6 when regional, 1 otherwise (spec 8 item 4). -/
def filePackageFanout (flags : Nat) : Nat :=
  if flagsIntersect flags FilePackageFlags.IS_LOCALIZED then 15
  else if flagsIntersect flags FilePackageFlags.IS_REGIONAL then 6
  else 1

/-- Claim C9 (confirmed): without `u32` overflow, `checked_range start
count` is `start..start+count` when `start + count < INVALID_INDEX` and
the empty range `0..0` otherwise, and no index it yields ever reaches
`INVALID_INDEX`. -/
theorem checked_range_spec (start count : Nat)
    (h : start + count < U32_MOD) :
    (start + count < INVALID_INDEX →
       checked_range start count = ⟨start, start + count⟩) ∧
    (INVALID_INDEX ≤ start + count → checked_range start count = ⟨0, 0⟩) ∧
    ∀ i, (checked_range start count).mem i → i < INVALID_INDEX := by
  refine ⟨?_, ?_, ?_⟩
  · intro hlt
    unfold checked_range
    rw [if_neg (by omega)]
  · intro hge
    unfold checked_range
    rw [if_pos hge]
  · intro i hi
    unfold checked_range at hi
    by_cases hge : INVALID_INDEX ≤ start + count
    · rw [if_pos hge] at hi
      simp [Range32.mem] at hi
    · rw [if_neg hge] at hi
      simp only [Range32.mem] at hi
      omega

/-- Witness for C9: `checked_range 3 4` is the range `3..7`. -/
theorem checked_range_spec_witness : checked_range 3 4 = ⟨3, 7⟩ :=
  (checked_range_spec 3 4 (by decide)).1 (by decide)

/-- Claim C2 (code bug): `HashWithData::set_data` stores the payload
with `data << 24` while `data()` reads `(len_and_data & 0xFFFFFF00) >>
8`, so a 24-bit payload of `1` reads back as `0x10000`, not `1`; the
low length byte is preserved. -/
theorem set_data_data_mismatch :
    ((HashWithData.mk 0 0x12).set_data 1).data = 0x10000 ∧
    (0x10000 : Nat) ≠ 1 ∧
    ((HashWithData.mk 0 0x12).set_data 1).length = 0x12 :=
  ⟨rfl, by decide, rfl⟩

/-- Claim C3 (code bug): a `FilePath` whose previous-version composite
holds `INVALID` still does not hold `INVALID` after `reinternalize`:
the `set_data(INVALID_INDEX)` write lands at bit 24 and reads back as
`0xFF0000`. -/
theorem sentinel_lost_in_ext_and_version :
    (FilePath.mk ⟨0, 0⟩ ⟨0, 0xFFFFFF00⟩ h0 h0).ext_and_version.data
      = INVALID_INDEX ∧
    (FilePath.reinternalize (FilePath.mk ⟨0, 0⟩ ⟨0, 0xFFFFFF00⟩ h0 h0)
        entityZeroState).map (fun p => p.ext_and_version.data)
      = .ok 0xFF0000 ∧
    (0xFF0000 : Nat) ≠ INVALID_INDEX :=
  ⟨rfl, rfl, by decide⟩

/-- Claim C1 (code bug): in the loaded `roundTables`, FilePath 1 embeds
FileEntity index 1, but the re-serialized output embeds `0x10000` there
while only 2 file entities exist, so no per-type index bijection can
make the reloaded structure bit-equal to the first load. -/
theorem round_trip_broken_by_set_data :
    (roundTables.file_path.get 1).map (fun p => p.path_and_entity.data)
      = some 1 ∧
    (ResourceTables.into_bytes roundTables).map
        (fun o => ((o.file_path.get? 1).map
                     (fun p => p.path_and_entity.data),
                   o.file_entity.length))
      = .ok (some 0x10000, 2) ∧
    ¬ (0x10000 : Nat) < 2 :=
  ⟨rfl, rfl, by decide⟩

/-- Claim C10 (code bug): `advance_byte_slice::<u32>(2)` on a fresh
16-byte reader returns the byte range `0..8` but leaves the cursor at
`2`, not at `8 = count * size_of::<T>()`. -/
theorem advance_byte_slice_cursor_mismatch :
    BorrowedReader.advance_byte_slice ⟨16, 0⟩ 4 2
      = .ok (⟨0, 8⟩, ⟨16, 2⟩) ∧ (2 : Nat) ≠ 2 * 4 :=
  ⟨rfl, by decide⟩

/-- Counterexample for C4: re-serializing an archive whose FileDesc 0
carries load-method tag `0x02` aborts with the corrupt-load-method
panic; it does not produce the I/O-style `Err` the claim describes. -/
theorem corrupt_tag_panics_concretely :
    ResourceTables.into_bytes badTagTables
      = .error .corruptLoadMethod ∧
    Failure.corruptLoadMethod ≠ Failure.ioError :=
  ⟨rfl, by decide⟩

/-- Claim C4 (corrected): a load-method tag outside
`{0x00, 0x01, 0x03, 0x05, 0x09, 0x10}` is surfaced by the
`panic!("Unsupported load method ..")` in the decoder — a process
abort, not an `Err` returned by `serialize_tables`. -/
theorem corrupt_tag_is_fatal_panic (w : Nat)
    (k0 : w >>> 24 ≠ 0x00) (k1 : w >>> 24 ≠ 0x01) (k3 : w >>> 24 ≠ 0x03)
    (k5 : w >>> 24 ≠ 0x05) (k9 : w >>> 24 ≠ 0x09)
    (k16 : w >>> 24 ≠ 0x10) :
    LoadMethod.fromWord w = .error .corruptLoadMethod := by
  unfold LoadMethod.fromWord
  simp only [if_neg k0, if_neg k1, if_neg k3, if_neg k5, if_neg k9,
    if_neg k16]

/-- Witness for C4 at the word `0x02000000`. -/
theorem corrupt_tag_is_fatal_panic_witness :
    LoadMethod.fromWord 0x02000000 = .error .corruptLoadMethod :=
  corrupt_tag_is_fatal_panic 0x02000000 (by decide) (by decide)
    (by decide) (by decide) (by decide) (by decide)

/-- Claim C5 (confirmed): whenever `FileDesc::reinternalize` succeeds
on a descriptor whose load-method tag is `0x01` (Owned), the emitted
load-method word is exactly `0x01FFFFFF`, whatever the original 24-bit
payload was. -/
theorem owned_payload_erased (d : FileDesc) (s : SerState)
    (d' : FileDesc) (htag : d.load_method >>> 24 = 0x01)
    (h : d.reinternalize s = .ok d') :
    d'.load_method = 0x01FFFFFF := by
  have hlm : LoadMethod.fromWord d.load_method
      = .ok (.owned (d.load_method &&& 0xFFFFFF)) := by
    unfold LoadMethod.fromWord
    simp [htag]
  unfold FileDesc.reinternalize at h
  cases hg : s.get .fileGroup d.group with
  | error e => rw [hg] at h; simp [Bind.bind, Except.bind] at h
  | ok group =>
    cases hf : s.get .fileData d.file_data with
    | error e =>
      rw [hg, hf] at h; simp [Bind.bind, Except.bind] at h
    | ok file_data =>
      rw [hg, hf, hlm] at h
      simp only [Bind.bind, Except.bind] at h
      injection h with h
      subst h
      show (LoadMethod.owned INVALID_INDEX).toWord = 0x01FFFFFF
      decide

/-- Witness for C5: an Owned descriptor with payload `0x42` comes out
with the word `0x01FFFFFF`. -/
theorem owned_payload_erased_witness :
    (FileDesc.mk 0xFFFFFF 0xFFFFFF 0x01000042).load_method >>> 24
      = 0x01 ∧
    (FileDesc.mk 0xFFFFFF 0xFFFFFF 0x01FFFFFF).load_method
      = 0x01FFFFFF :=
  ⟨rfl, owned_payload_erased (FileDesc.mk 0xFFFFFF 0xFFFFFF 0x01000042)
    SerState.empty (FileDesc.mk 0xFFFFFF 0xFFFFFF 0x01FFFFFF) rfl rfl⟩

/-- Counterexample for C6: a FileInfo with the IS_LOCALIZED flag but
`desc = 0xFFFFF0` gets an empty descriptor range (the `checked_range`
cut-off), not 15 descriptors. -/
theorem localized_fanout_truncated :
    flagsIntersect (FileInfo.mk 0 0 0xFFFFF0 (1 <<< 15)).flags
      FileInfoFlags.IS_LOCALIZED ∧
    (FileInfo.mk 0 0 0xFFFFF0 (1 <<< 15)).descriptor_range.count ≠ 15 :=
  ⟨by decide, by decide⟩

/-- Claim C6 (corrected): provided the start of the range plus the
fan-out stays below `INVALID_INDEX`, `FileInfo::descriptor_range`
yields 15 / 6 / 1 descriptors (IS_LOCALIZED taking precedence),
`StreamPath::descriptor_range` yields 14 / 5 / 1, and
`FilePackage::data_group_range` yields 15 / 6 / 1; otherwise
`checked_range` collapses the range to empty. -/
theorem fanout_flag_counts (fi : FileInfo) (sp : StreamPath)
    (pk : FilePackage) :
    (flagsIntersect fi.flags FileInfoFlags.IS_LOCALIZED →
       fi.desc + 15 < INVALID_INDEX →
       fi.descriptor_range.count = 15) ∧
    (¬ flagsIntersect fi.flags FileInfoFlags.IS_LOCALIZED →
       flagsIntersect fi.flags FileInfoFlags.IS_REGIONAL →
       fi.desc + 6 < INVALID_INDEX →
       fi.descriptor_range.count = 6) ∧
    (¬ flagsIntersect fi.flags FileInfoFlags.IS_LOCALIZED →
       ¬ flagsIntersect fi.flags FileInfoFlags.IS_REGIONAL →
       fi.desc + 1 < INVALID_INDEX →
       fi.descriptor_range.count = 1) ∧
    (flagsContain sp.flags StreamFileFlags.IS_LOCALIZED →
       sp.path_and_desc.data + 14 < INVALID_INDEX →
       sp.descriptor_range.count = 14) ∧
    (¬ flagsContain sp.flags StreamFileFlags.IS_LOCALIZED →
       flagsContain sp.flags StreamFileFlags.IS_REGIONAL →
       sp.path_and_desc.data + 5 < INVALID_INDEX →
       sp.descriptor_range.count = 5) ∧
    (¬ flagsContain sp.flags StreamFileFlags.IS_LOCALIZED →
       ¬ flagsContain sp.flags StreamFileFlags.IS_REGIONAL →
       sp.path_and_desc.data + 1 < INVALID_INDEX →
       sp.descriptor_range.count = 1) ∧
    (flagsIntersect pk.flags FilePackageFlags.IS_LOCALIZED →
       pk.path_and_group.data + 15 < INVALID_INDEX →
       pk.data_group_range.count = 15) ∧
    (¬ flagsIntersect pk.flags FilePackageFlags.IS_LOCALIZED →
       flagsIntersect pk.flags FilePackageFlags.IS_REGIONAL →
       pk.path_and_group.data + 6 < INVALID_INDEX →
       pk.data_group_range.count = 6) ∧
    (¬ flagsIntersect pk.flags FilePackageFlags.IS_LOCALIZED →
       ¬ flagsIntersect pk.flags FilePackageFlags.IS_REGIONAL →
       pk.path_and_group.data + 1 < INVALID_INDEX →
       pk.data_group_range.count = 1) ∧
    (INVALID_INDEX ≤ fi.desc + fileInfoFanout fi.flags →
       fi.descriptor_range = ⟨0, 0⟩) ∧
    (INVALID_INDEX ≤ sp.path_and_desc.data + streamPathFanout sp.flags →
       sp.descriptor_range = ⟨0, 0⟩) ∧
    (INVALID_INDEX ≤ pk.path_and_group.data + filePackageFanout pk.flags →
       pk.data_group_range = ⟨0, 0⟩) := by
  refine ⟨?_, ?_, ?_, ?_, ?_, ?_, ?_, ?_, ?_, ?_, ?_, ?_⟩
  · intro hl hb
    simp only [FileInfo.descriptor_range, if_pos hl]
    exact checked_range_count_of_lt _ _ (by unfold Locale.COUNT; omega)
  · intro hl hr hb
    simp only [FileInfo.descriptor_range, if_neg hl, if_pos hr]
    exact checked_range_count_of_lt _ _ (by unfold Region.COUNT; omega)
  · intro hl hr hb
    simp only [FileInfo.descriptor_range, if_neg hl, if_neg hr]
    exact checked_range_count_of_lt _ _ (by omega)
  · intro hl hb
    simp only [StreamPath.descriptor_range, if_pos hl]
    exact checked_range_count_of_lt _ _ (by unfold Locale.COUNT; omega)
  · intro hl hr hb
    simp only [StreamPath.descriptor_range, if_neg hl, if_pos hr]
    exact checked_range_count_of_lt _ _ (by unfold Region.COUNT; omega)
  · intro hl hr hb
    simp only [StreamPath.descriptor_range, if_neg hl, if_neg hr]
    exact checked_range_count_of_lt _ _ (by omega)
  · intro hl hb
    simp only [FilePackage.data_group_range, if_pos hl]
    exact checked_range_count_of_lt _ _ (by unfold Locale.COUNT; omega)
  · intro hl hr hb
    simp only [FilePackage.data_group_range, if_neg hl, if_pos hr]
    exact checked_range_count_of_lt _ _ (by unfold Region.COUNT; omega)
  · intro hl hr hb
    simp only [FilePackage.data_group_range, if_neg hl, if_neg hr]
    exact checked_range_count_of_lt _ _ (by omega)
  · intro hge
    by_cases hl : flagsIntersect fi.flags FileInfoFlags.IS_LOCALIZED
    · simp only [fileInfoFanout, if_pos hl] at hge
      simp only [FileInfo.descriptor_range, if_pos hl]
      exact checked_range_empty_of_ge _ _ (by unfold Locale.COUNT; omega)
    · by_cases hr : flagsIntersect fi.flags FileInfoFlags.IS_REGIONAL
      · simp only [fileInfoFanout, if_neg hl, if_pos hr] at hge
        simp only [FileInfo.descriptor_range, if_neg hl, if_pos hr]
        exact checked_range_empty_of_ge _ _ (by unfold Region.COUNT; omega)
      · simp only [fileInfoFanout, if_neg hl, if_neg hr] at hge
        simp only [FileInfo.descriptor_range, if_neg hl, if_neg hr]
        exact checked_range_empty_of_ge _ _ (by omega)
  · intro hge
    by_cases hl : flagsContain sp.flags StreamFileFlags.IS_LOCALIZED
    · simp only [streamPathFanout, if_pos hl] at hge
      simp only [StreamPath.descriptor_range, if_pos hl]
      exact checked_range_empty_of_ge _ _ (by unfold Locale.COUNT; omega)
    · by_cases hr : flagsContain sp.flags StreamFileFlags.IS_REGIONAL
      · simp only [streamPathFanout, if_neg hl, if_pos hr] at hge
        simp only [StreamPath.descriptor_range, if_neg hl, if_pos hr]
        exact checked_range_empty_of_ge _ _ (by unfold Region.COUNT; omega)
      · simp only [streamPathFanout, if_neg hl, if_neg hr] at hge
        simp only [StreamPath.descriptor_range, if_neg hl, if_neg hr]
        exact checked_range_empty_of_ge _ _ (by omega)
  · intro hge
    by_cases hl : flagsIntersect pk.flags FilePackageFlags.IS_LOCALIZED
    · simp only [filePackageFanout, if_pos hl] at hge
      simp only [FilePackage.data_group_range, if_pos hl]
      exact checked_range_empty_of_ge _ _ (by unfold Locale.COUNT; omega)
    · by_cases hr : flagsIntersect pk.flags FilePackageFlags.IS_REGIONAL
      · simp only [filePackageFanout, if_neg hl, if_pos hr] at hge
        simp only [FilePackage.data_group_range, if_neg hl, if_pos hr]
        exact checked_range_empty_of_ge _ _ (by unfold Region.COUNT; omega)
      · simp only [filePackageFanout, if_neg hl, if_neg hr] at hge
        simp only [FilePackage.data_group_range, if_neg hl, if_neg hr]
        exact checked_range_empty_of_ge _ _ (by omega)

/-- Witness for C6: a localized FileInfo at `desc = 4` yields 15
descriptors; a regional FileInfo at `desc = 0xFFFFF4` (in bounds for
the applicable fan-out 6, out of bounds for 15) yields 6; a localized
StreamPath at start 3 yields 14; an unflagged FilePackage yields 1 data
group; and a localized FileInfo at `desc = 0xFFFFF8` gets the empty
range. -/
theorem fanout_flag_counts_witness :
    (FileInfo.mk 0 0 4 (1 <<< 15)).descriptor_range.count = 15 ∧
    (FileInfo.mk 0 0 0xFFFFF4 (1 <<< 16)).descriptor_range.count = 6 ∧
    (StreamPath.mk ⟨0, 0x300⟩ 1).descriptor_range.count = 14 ∧
    (FilePackage.mk ⟨0, 0⟩ h0 h0 h0 0 0 0 0 0).data_group_range.count
      = 1 ∧
    (FileInfo.mk 0 0 0xFFFFF8 (1 <<< 15)).descriptor_range = ⟨0, 0⟩ :=
  ⟨(fanout_flag_counts (FileInfo.mk 0 0 4 (1 <<< 15))
      (StreamPath.mk ⟨0, 0x300⟩ 1)
      (FilePackage.mk ⟨0, 0⟩ h0 h0 h0 0 0 0 0 0)).1
      (by decide) (by decide),
   (fanout_flag_counts (FileInfo.mk 0 0 0xFFFFF4 (1 <<< 16))
      (StreamPath.mk ⟨0, 0x300⟩ 1)
      (FilePackage.mk ⟨0, 0⟩ h0 h0 h0 0 0 0 0 0)).2.1
      (by decide) (by decide) (by decide),
   (fanout_flag_counts (FileInfo.mk 0 0 4 (1 <<< 15))
      (StreamPath.mk ⟨0, 0x300⟩ 1)
      (FilePackage.mk ⟨0, 0⟩ h0 h0 h0 0 0 0 0 0)).2.2.2.1
      (by decide) (by decide),
   (fanout_flag_counts (FileInfo.mk 0 0 4 (1 <<< 15))
      (StreamPath.mk ⟨0, 0x300⟩ 1)
      (FilePackage.mk ⟨0, 0⟩ h0 h0 h0 0 0 0 0 0)).2.2.2.2.2.2.2.2.1
      (by decide) (by decide) (by decide),
   (fanout_flag_counts (FileInfo.mk 0 0 0xFFFFF8 (1 <<< 15))
      (StreamPath.mk ⟨0, 0x300⟩ 1)
      (FilePackage.mk ⟨0, 0⟩ h0 h0 h0 0 0 0 0 0)).2.2.2.2.2.2.2.2.2.1
      (by decide)⟩

/-- Claim C7 (confirmed): a successful `FileEntity::reinternalize`
rewrites the owner through the FilePackage map exactly when
`package_or_group < package_len`, through the FileGroup map exactly
when `package_or_group >= package_len`, and the info field through the
FileInfo map. -/
theorem file_entity_owner_disambiguation (e : FileEntity) (s : SerState)
    (package_len : Nat) (e' : FileEntity)
    (h : e.reinternalize s package_len = .ok e') :
    (e.package_or_group < package_len →
       s.get .filePackage e.package_or_group = .ok e'.package_or_group) ∧
    (package_len ≤ e.package_or_group →
       s.get .fileGroup e.package_or_group = .ok e'.package_or_group) ∧
    s.get .fileInfo e.info = .ok e'.info := by
  unfold FileEntity.reinternalize at h
  by_cases hc : package_len ≤ e.package_or_group
  · rw [if_pos hc] at h
    cases hg : s.get .fileGroup e.package_or_group with
    | error er => rw [hg] at h; simp [Bind.bind, Except.bind] at h
    | ok owner =>
      cases hi : s.get .fileInfo e.info with
      | error er =>
        rw [hg, hi] at h; simp [Bind.bind, Except.bind] at h
      | ok info =>
        rw [hg, hi] at h
        simp only [Bind.bind, Except.bind] at h
        injection h with h
        subst h
        exact ⟨fun hlt => absurd hlt (by omega), fun _ => rfl, rfl⟩
  · rw [if_neg hc] at h
    cases hg : s.get .filePackage e.package_or_group with
    | error er => rw [hg] at h; simp [Bind.bind, Except.bind] at h
    | ok owner =>
      cases hi : s.get .fileInfo e.info with
      | error er =>
        rw [hg, hi] at h; simp [Bind.bind, Except.bind] at h
      | ok info =>
        rw [hg, hi] at h
        simp only [Bind.bind, Except.bind] at h
        injection h with h
        subst h
        exact ⟨fun _ => rfl, fun hge => absurd hge hc, rfl⟩

/-- Witness for C7: with FilePackage 5 and FileInfo 7 reserved, the
entity `(5, 7)` under `package_len = 6` resolves its owner through the
FilePackage map. -/
theorem file_entity_owner_disambiguation_witness :
    ownerState.get .filePackage 5 = .ok 0 :=
  (file_entity_owner_disambiguation ⟨5, 7⟩ ownerState 6 ⟨0, 0⟩ rfl).1
    (by decide)

/-- Claim C8 (confirmed): whenever the package reservation walk
completes without collecting any FileGroup subpackage, `into_bytes`
aborts on the `info_start.unwrap()` — it neither returns serialized
output nor an I/O error. -/
theorem into_bytes_no_info_group_unwrap_panic (t : ResourceTables)
    (cache : SerState)
    (h : reservePackages t = .ok (cache, [])) :
    t.into_bytes = .error .infoStartUnwrap := by
  unfold ResourceTables.into_bytes
  rw [h]
  simp [Bind.bind, Except.bind, Pure.pure, Except.pure,
    reserveInfoGroups, List.foldlM]

/-- Witness for C8: `noSubTables` (one package, no subpackage) makes
`into_bytes` hit the `info_start.unwrap()` panic. -/
theorem into_bytes_no_info_group_unwrap_panic_witness :
    ResourceTables.into_bytes noSubTables = .error .infoStartUnwrap :=
  into_bytes_no_info_group_unwrap_panic noSubTables
    ⟨[], [], [0], [], [0], [0], [], [0], [], [], [], []⟩ rfl

end ArcReader
